import Mathlib

/-!
Shallow embedding of `src/frontend/script.js` (the bhasha-sethu browser UI).

The file models the dynamic JavaScript values flowing through `handleProcess`,
`renderResults` and `renderMetrics` with an inductive `JSVal` type; JS numbers
are modelled as exact rationals (every JS number is a dyadic rational, and all
numeric formatting performed by the code — `toFixed` and default number
printing — is reproduced on ℚ).  Fallible evaluation (property access on
`undefined`/`null`, calling a missing method) is modelled with `Except JSError`.
DOM state is an explicit record of the element contents the script reads and
writes, and the single `fetch` call is an input to the model describing the
network outcome.
-/

set_option maxRecDepth 4000

namespace BhashaSethu

/-- Dynamic JavaScript values.  Numbers are modelled as exact rationals. -/
inductive JSVal where
  | undefined
  | null
  | bool (b : Bool)
  | num (q : ℚ)
  | str (s : String)
  | arr (elems : List JSVal)
  | obj (fields : List (String × JSVal))

/-- Runtime exceptions thrown while the script executes: `TypeError` from
property access on `undefined`/`null` or calling a missing method, the
`new Error(...)` thrown on a non-ok HTTP status, and a JSON parse failure
from `res.json()`. -/
inductive JSError where
  | typeError (msg : String)
  | genericError (msg : String)
  | parseError
deriving DecidableEq

/-- JavaScript truthiness, as used by the normalized-text conditional, the retrieved-items fallback and the
joined-markup fallback in renderResults. -/
def truthy : JSVal → Bool
  | .undefined => false
  | .null => false
  | .bool b => b
  | .num q => if q = 0 then false else true
  | .str s => if s = "" then false else true
  | .arr _ => true
  | .obj _ => true

/-- Lookup of a property name in the field list of an object (first match). -/
def lookupField : List (String × JSVal) → String → JSVal
  | [], _ => .undefined
  | (k, v) :: rest, key => if k = key then v else lookupField rest key

/-- Property access `v.key`.  Throws `TypeError` on `undefined` and `null`;
returns the field on objects (or `undefined` when absent); returns
`undefined` on other primitives and arrays, whose prototypes define none of
the property names this script reads. -/
def getField : JSVal → String → Except JSError JSVal
  | .undefined, k => .error (.typeError ("Cannot read properties of undefined (reading " ++ k ++ ")"))
  | .null, k => .error (.typeError ("Cannot read properties of null (reading " ++ k ++ ")"))
  | .obj fs, k => .ok (lookupField fs k)
  | _, _ => .ok .undefined

/-- Left-pads a digit string with zeros up to length `d`. -/
def padZeros (s : String) (d : Nat) : String :=
  if s.length ≥ d then s else String.mk (List.replicate (d - s.length) '0') ++ s

/-- Number.prototype.toFixed on an exact rational: the integer n minimizing
the distance from q times ten to the digits (ties toward the larger n, as
the ECMAScript algorithm specifies), printed with exactly `digits` digits
after the decimal point. -/
def toFixed (q : ℚ) (digits : Nat) : String :=
  let n : ℤ := ⌊q * (10 : ℚ) ^ digits + 1 / 2⌋
  let sign := if n < 0 then "-" else ""
  let a := n.natAbs
  let p := 10 ^ digits
  if digits = 0 then sign ++ toString a
  else sign ++ toString (a / p) ++ "." ++ padZeros (toString (a % p)) digits

/-- Finds the least k (below the fuel bound) such that q times 10 ^ k is an
integer, returning k together with that integer.  Every JS number is a
dyadic rational, so for faithful inputs the search always succeeds well
within the fuel (a double needs at most 1074 fractional decimal digits). -/
def decSearch (q : ℚ) (k : Nat) : Nat → Option (Nat × ℤ)
  | 0 => none
  | fuel + 1 =>
    let scaled := q * (10 : ℚ) ^ k
    if scaled.den = 1 then some (k, scaled.num)
    else decSearch q (k + 1) fuel

/-- Default JS number-to-string conversion on an exact rational with a finite
decimal expansion: the shortest exact decimal form (integers print with no
decimal point).  Rationals with no finite decimal expansion (which do not
arise from JS numbers) fall back to a fraction form. -/
def ratToString (q : ℚ) : String :=
  match decSearch q 0 1200 with
  | some (0, n) => toString n
  | some (k, n) =>
    let sign := if n < 0 then "-" else ""
    let a := n.natAbs
    let p := 10 ^ k
    sign ++ toString (a / p) ++ "." ++ padZeros (toString (a % p)) k
  | none => toString q.num ++ "/" ++ toString q.den

mutual

/-- ToString coercion applied by template-literal interpolation. -/
def jsToString : JSVal → String
  | .undefined => "undefined"
  | .null => "null"
  | .bool b => if b then "true" else "false"
  | .num q => ratToString q
  | .str s => s
  | .arr xs => jsArrToString xs
  | .obj _ => "[object Object]"

/-- Array.prototype.toString: elements joined by commas. -/
def jsArrToString : List JSVal → String
  | [] => ""
  | [v] => jsElemToString v
  | v :: rest => jsElemToString v ++ "," ++ jsArrToString rest

/-- Element conversion inside Array.prototype.join: `undefined` and `null`
become the empty string. -/
def jsElemToString : JSVal → String
  | .undefined => ""
  | .null => ""
  | v => jsToString v

end

/-- Lowercase hexadecimal digit. -/
def hexDigit (n : Nat) : Char :=
  if n < 10 then Char.ofNat (48 + n) else Char.ofNat (87 + n)

/-- JSON string escaping as performed by JSON.stringify: quote, backslash and
control characters are escaped, everything else passes through. -/
def jsonEscapeChar (c : Char) : String :=
  if c = '"' then "\\\""
  else if c = '\\' then "\\\\"
  else if c.toNat = 8 then "\\b"
  else if c.toNat = 9 then "\\t"
  else if c.toNat = 10 then "\\n"
  else if c.toNat = 12 then "\\f"
  else if c.toNat = 13 then "\\r"
  else if c.toNat < 32 then "\\u00" ++ String.mk [hexDigit (c.toNat / 16), hexDigit (c.toNat % 16)]
  else String.singleton c

/-- Escapes every character of a string for JSON output. -/
def jsonEscape (s : String) : String := String.join (s.data.map jsonEscapeChar)

/-- Comma-joins already-rendered JSON fragments. -/
def joinComma : List String → String
  | [] => ""
  | [s] => s
  | s :: rest => s ++ "," ++ joinComma rest

mutual

/-- JSON.stringify.  `undefined` at top level has no JSON encoding and is
rendered as the empty string here (the script never does this). -/
def jsonStringify : JSVal → String
  | .undefined => ""
  | .null => "null"
  | .bool b => if b then "true" else "false"
  | .num q => ratToString q
  | .str s => "\"" ++ jsonEscape s ++ "\""
  | .arr xs => "[" ++ joinComma (jsonArrElems xs) ++ "]"
  | .obj fs => "\x7b" ++ joinComma (jsonFields fs) ++ "\x7d"

/-- Array elements: `undefined` is encoded as `null`. -/
def jsonArrElems : List JSVal → List String
  | [] => []
  | .undefined :: rest => "null" :: jsonArrElems rest
  | v :: rest => jsonStringify v :: jsonArrElems rest

/-- Object fields in insertion order; fields whose value is `undefined`
are skipped. -/
def jsonFields : List (String × JSVal) → List String
  | [] => []
  | (_, .undefined) :: rest => jsonFields rest
  | (k, v) :: rest => ("\"" ++ jsonEscape k ++ "\":" ++ jsonStringify v) :: jsonFields rest

end

/-! Fixed HTML fragments assigned by the script, transcribed verbatim from
the template literals in `src/frontend/script.js` (template newlines and
indentation included). -/

/-- Loading indicator placed in the results container before the fetch. -/
def loadingHTML : String :=
  "\n    <div class=\"flex justify-center p-8\">\n      <div class=\"loader\"></div>\n      <p class=\"ml-4 text-slate-600\">Analyzing pipeline...</p>\n    </div>"

/-- Placeholder placed in the metrics container before the fetch. -/
def calculatingHTML : String :=
  "<p class=\"text-slate-500\">Calculating...</p>"

/-- Fixed error view written to the results container by the catch block. -/
def backendErrorHTML : String :=
  "<div class=\"bg-red-50 border border-red-200 p-4 rounded-lg\"><p class=\"text-red-700\">❌ Backend error. Is Flask running?</p></div>"

/-- Fixed error label written to the metrics container by the catch block. -/
def failedHTML : String :=
  "<p class=\"text-red-500\">Failed</p>"

/-- Placeholder rendered when the joined retrieved-items markup is empty. -/
def noItemsHTML : String :=
  "<div class=\"text-slate-500\">No relevant items found.</div>"

/-- Normalized-input block, rendered only when `d.normalized_text` is truthy. -/
def normBlockHTML (s : String) : String :=
  "\n    <div class=\"mt-3 p-3 bg-sky-50 border-l-4 border-sky-300 rounded-r-lg animate-fadeIn\">\n      <h4 class=\"font-semibold text-slate-600\">Normalized Input</h4>\n      <p class=\"mt-1 text-slate-800\">" ++ s ++ "</p>\n    </div>"

/-- Outer success template of `renderResults`, as a function of the five
interpolated slots (detected language, original text, normalized block,
retrieved-items markup, translated text). -/
def resultsShell (dln ot norm ragList tt : String) : String :=
  "\n    <div class=\"bg-gray-50 rounded-lg p-6 shadow-sm space-y-4 result-card animate-fadeIn\">\n      <div>\n        <h3 class=\"font-semibold text-slate-500\">Detected Language</h3>\n        <span class=\"inline-block bg-indigo-100 text-indigo-700 text-sm font-bold px-3 py-1 rounded-full\">" ++ dln ++
    ("</span>\n        <p class=\"mt-2 text-lg text-slate-900\">" ++ ot ++
      ("</p>\n      </div>\n      " ++ norm ++
        ("\n      <div>\n        <h3 class=\"font-semibold text-slate-500\">Retrieved Context (Top-K)</h3>\n        " ++ ragList ++
          ("\n      </div>\n      <div>\n        <h3 class=\"font-semibold text-slate-500\">Final Output</h3>\n        <p id=\"translated-text\" class=\"mt-1 text-xl font-semibold text-indigo-700 animate-popIn\">" ++ tt ++
            "</p>\n      </div>\n    </div>\n  "))))

/-- Metrics template of `renderMetrics`, as a function of the five
interpolated cell strings. -/
def metricsShell (bleu comet latency nep tox : String) : String :=
  "\n    <div class=\"grid grid-cols-2 sm:grid-cols-3 gap-4 animate-fadeIn\">\n      <div>\n        <p class=\"text-sm text-slate-500\">BLEU</p>\n        <p class=\"text-lg font-bold text-slate-800\">" ++ bleu ++ "</p>\n      </div>\n      <div>\n        <p class=\"text-sm text-slate-500\">COMET</p>\n        <p class=\"text-lg font-bold text-slate-800\">" ++ comet ++ "</p>\n      </div>\n      <div>\n        <p class=\"text-sm text-slate-500\">Latency</p>\n        <p class=\"text-lg font-bold text-slate-800\">" ++ latency ++ " ms</p>\n      </div>\n      <div>\n        <p class=\"text-sm text-slate-500\">NE Preservation</p>\n        <p class=\"text-lg font-bold text-slate-800\">" ++ nep ++ "%</p>\n      </div>\n      <div>\n        <p class=\"text-sm text-slate-500\">Toxicity Leakage</p>\n        <p class=\"text-lg font-bold text-slate-800\">" ++ tox ++ "%</p>\n      </div>\n    </div>\n  "

/-- Method call `v.toFixed(digits)`: defined on numbers, a `TypeError` on
every other value (none of the other prototypes involved define toFixed). -/
def jsToFixed (v : JSVal) (digits : Nat) : Except JSError String :=
  match v with
  | .num q => .ok (toFixed q digits)
  | _ => .error (.typeError "toFixed is not a function")

/-- Markup produced for one retrieved item `r` at zero-based index `i`
(the template inside the `.map` callback of `renderResults`). -/
def itemHTML (i : Nat) (r : JSVal) : Except JSError String := do
  let domain ← getField r "domain"
  let lang ← getField r "lang"
  let score ← getField r "score"
  let scoreStr ← jsToFixed score 3
  let txt ← getField r "text"
  .ok ("\n      <div class=\"p-3 rounded-md border bg-amber-50 mb-2 result-item animate-slideUp\">\n        <div class=\"text-xs text-amber-700 mb-1\">#" ++ toString (i + 1) ++
    (" • " ++ jsToString domain ++
      (" • " ++ jsToString lang ++
        (" • score " ++ scoreStr ++
          ("</div>\n        <div class=\"text-slate-800\">" ++ jsToString txt ++
            "</div>\n      </div>\n    ")))))

/-- The map-and-join over the retrieved items: item markup
concatenated in order, with the zero-based index threaded through. -/
def mapItems : List JSVal → Nat → Except JSError String
  | [], _ => .ok ""
  | r :: rest, i =>
    match itemHTML i r with
    | .error e => .error e
    | .ok s =>
      match mapItems rest (i + 1) with
      | .error e => .error e
      | .ok srest => .ok (s ++ srest)

/-- The `d.retrieved_items || []` coercion followed by `.map`: a falsy value
is replaced by the empty array; a truthy non-array has no `.map` method and
throws a `TypeError`. -/
def coerceItems (v : JSVal) : Except JSError (List JSVal) :=
  match v with
  | .arr xs => .ok xs
  | w => if truthy w then .error (.typeError "map is not a function") else .ok []

/-- renderResults from the script: computes the normalized-input block, the
retrieved-items markup (placeholder when that markup is empty), and fills
the outer success template.  The returned string is the value assigned to
`resultsContainer.innerHTML`; any JS exception during the computation is
propagated as an error. -/
def renderResults (d : JSVal) : Except JSError String := do
  let nv ← getField d "normalized_text"
  let norm := if truthy nv then normBlockHTML (jsToString nv) else ""
  let riv ← getField d "retrieved_items"
  let items ← coerceItems riv
  let mapped ← mapItems items 0
  let ragList := if mapped = "" then noItemsHTML else mapped
  let dln ← getField d "detected_language_name"
  let ot ← getField d "original_text"
  let tt ← getField d "translated_text"
  .ok (resultsShell (jsToString dln) (jsToString ot) norm ragList (jsToString tt))

/-- The `(m.x * 100).toFixed(2)` cell: on a number the product is exact; on
`null` and booleans JS ToNumber coercion applies; other operand kinds
(undefined, objects, and non-numeric strings) make the product NaN, which
toFixed prints as "NaN".  (ToNumber of numeric strings is not modelled; no
backend field is a numeric string.) -/
def jsMulToFixed (v : JSVal) (factor : ℚ) (digits : Nat) : String :=
  match v with
  | .num q => toFixed (q * factor) digits
  | .null => toFixed (0 * factor) digits
  | .bool b => toFixed ((if b then (1 : ℚ) else 0) * factor) digits
  | _ => "NaN"

/-- renderMetrics from the script: reads the five metric fields of `m` and
fills the metrics template; the two fraction-valued metrics are multiplied
by 100 and formatted with toFixed(2), the others are interpolated with the
default number-to-string conversion.  The returned string is the value
assigned to `metricsContainer.innerHTML`. -/
def renderMetrics (m : JSVal) : Except JSError String := do
  let bleu ← getField m "bleu"
  let comet ← getField m "comet"
  let latency ← getField m "latency_ms"
  let nep ← getField m "named_entity_preservation"
  let tox ← getField m "toxicity_leakage"
  .ok (metricsShell (jsToString bleu) (jsToString comet) (jsToString latency)
        (jsMulToFixed nep 100 2) (jsMulToFixed tox 100 2))

/-- Characters removed by String.prototype.trim: ECMAScript WhiteSpace and
LineTerminator code points (tab, line feed, vertical tab, form feed,
carriage return, space, no-break space, line separator, paragraph
separator, byte-order mark; the rarer Zs space separators are not
modelled). -/
def jsWhitespaceChar (c : Char) : Bool :=
  c = ' ' || c = '\t' || c = '\n' || c = '\r' || c.toNat = 11 || c.toNat = 12 ||
    c.toNat = 160 || c.toNat = 8232 || c.toNat = 8233 || c.toNat = 65279

/-- String.prototype.trim: removes leading and trailing whitespace. -/
def jsTrim (s : String) : String :=
  String.mk (List.reverse (List.dropWhile jsWhitespaceChar
    (List.reverse (List.dropWhile jsWhitespaceChar s.data))))

/-- Fixed backend origin from the script. -/
def API_URL : String := "http://127.0.0.1:5000"

/-- One HTTP request as issued by the `fetch` call: URL, method, the single
header set by the script, and the serialized body. -/
structure Request where
  url : String
  method : String
  contentType : String
  body : String
deriving DecidableEq

/-- Outcome of the single `fetch` call, an input to the model: either the
transport fails (the fetch promise rejects), or a response with an HTTP
status arrives and its body either parses as JSON (`.ok data`) or fails to
parse (`res.json()` rejects). -/
inductive FetchOutcome where
  | netError
  | response (status : Nat) (body : Except JSError JSVal)

/-- Response.ok from the fetch specification: status in the range 200-299. -/
def statusOk (status : Nat) : Bool := 200 ≤ status && status ≤ 299

/-- DOM state touched by `handleProcess`: the value of the text field,
the value of the language select, and the innerHTML of the two display regions. -/
structure DomState where
  textValue : String
  selectValue : String
  resultsHTML : String
  metricsHTML : String
deriving DecidableEq

/-- Observable outcome of one `handleProcess` invocation: the final DOM
state, the requests issued, whether `textInput.focus()` was called, and the
errors passed to `console.error`. -/
structure ProcResult where
  dom : DomState
  requests : List Request
  focusedInput : Bool
  logged : List JSError
deriving DecidableEq

/-- Rendering steps of the `try` block on parsed response data: the
`renderResults(data)` call, the `data.metrics` read, and the
`renderMetrics` call, producing the two container strings or the first JS
exception thrown. -/
def renderPipeline (data : JSVal) : Except JSError (String × String) :=
  match renderResults data with
  | .error e => .error e
  | .ok r =>
    match getField data "metrics" with
    | .error e => .error e
    | .ok mv =>
      match renderMetrics mv with
      | .error e => .error e
      | .ok m => .ok (r, m)

/-- Body of the `try` block after the request is issued, producing the pair
of strings assigned to the two containers on success, or the first JS
exception thrown: the `new Error` on a non-ok status, the `res.json()`
rejection, or a rendering exception. -/
def tryBody (fetch : FetchOutcome) : Except JSError (String × String) :=
  match fetch with
  | .netError => .error (.typeError "Failed to fetch")
  | .response status body =>
    if statusOk status then
      match body with
      | .error e => .error e
      | .ok data => renderPipeline data
    else .error (.genericError ("HTTP " ++ toString status))

/-- handleProcess from the script.  Empty trimmed input: focus the text
field and return with nothing else done.  Otherwise: show the loading
placeholders, issue exactly one POST to `/api/process` with the JSON body
built from the trimmed text and the current value of the select, and either
render the success views or, when anything in the `try` block throws, log
the error and write the fixed error views into both regions.  (In the
success path `resultsContainer` is assigned before `renderMetrics` runs,
but the catch block overwrites both regions, so the final state below
coincides with that of the script.) -/
def handleProcess (st : DomState) (fetch : FetchOutcome) : ProcResult :=
  let text := jsTrim st.textValue
  if text = "" then
    { dom := st, requests := [], focusedInput := true, logged := [] }
  else
    let st1 := { st with resultsHTML := loadingHTML, metricsHTML := calculatingHTML }
    let payload : JSVal := .obj [("text", .str text), ("target_lang", .str st.selectValue)]
    let req : Request :=
      { url := API_URL ++ "/api/process", method := "POST",
        contentType := "application/json", body := jsonStringify payload }
    match tryBody fetch with
    | .ok (r, m) =>
      { dom := { st1 with resultsHTML := r, metricsHTML := m },
        requests := [req], focusedInput := false, logged := [] }
    | .error e =>
      { dom := { st1 with resultsHTML := backendErrorHTML, metricsHTML := failedHTML },
        requests := [req], focusedInput := false, logged := [e] }

/-! Well-typed backend responses (the ProcessResponse shape of the data
model in the spec), used to state claims about successful renders. -/

/-- One retrieved item with the expected field types. -/
structure RItem where
  domain : String
  lang : String
  score : ℚ
  text : String
deriving DecidableEq

/-- The JS object carrying one retrieved item. -/
def mkItem (r : RItem) : JSVal :=
  .obj [("domain", .str r.domain), ("lang", .str r.lang),
        ("score", .num r.score), ("text", .str r.text)]

/-- The JS object carrying a metrics record with the five numeric fields. -/
def mkMetrics (bleu comet latency nep tox : ℚ) : JSVal :=
  .obj [("bleu", .num bleu), ("comet", .num comet), ("latency_ms", .num latency),
        ("named_entity_preservation", .num nep), ("toxicity_leakage", .num tox)]

/-- The JS object carrying a well-typed ProcessResponse; `norm = none`
models a response in which the `normalized_text` field is absent. -/
def mkResponse (dln ot : String) (norm : Option String) (items : List RItem)
    (tt : String) (metrics : JSVal) : JSVal :=
  .obj ([("detected_language_name", .str dln), ("original_text", .str ot)]
    ++ (match norm with | some s => [("normalized_text", .str s)] | none => [])
    ++ [("retrieved_items", .arr (items.map mkItem)),
        ("translated_text", .str tt), ("metrics", metrics)])

/-- Markup `renderResults` produces for one well-typed item at zero-based
index `i` (so the displayed rank is `i + 1`). -/
def ragItemHTML (i : Nat) (r : RItem) : String :=
  "\n      <div class=\"p-3 rounded-md border bg-amber-50 mb-2 result-item animate-slideUp\">\n        <div class=\"text-xs text-amber-700 mb-1\">#" ++ toString (i + 1) ++
    (" • " ++ r.domain ++
      (" • " ++ r.lang ++
        (" • score " ++ toFixed r.score 3 ++
          ("</div>\n        <div class=\"text-slate-800\">" ++ r.text ++
            "</div>\n      </div>\n    "))))

/-- Concatenated item markup in list order, rank index threaded through. -/
def ragJoin : List RItem → Nat → String
  | [], _ => ""
  | r :: rest, i => ragItemHTML i r ++ ragJoin rest (i + 1)

/-- The retrieved-context slot: the joined item markup, or the placeholder
when that markup is empty. -/
def ragSlot (items : List RItem) : String :=
  if ragJoin items 0 = "" then noItemsHTML else ragJoin items 0

/-- The normalized-input slot for a well-typed response: empty when the
field is absent or the empty string, the full block otherwise. -/
def normSlot : Option String → String
  | none => ""
  | some s => if s = "" then "" else normBlockHTML s

/-- Occurrence of `pat` as a contiguous substring of `s`. -/
def SubstrOf (pat s : String) : Prop :=
  ∃ pre post : List Char, s.data = pre ++ pat.data ++ post

/-- Bool test whether `pat` starts `s`, on character lists. -/
def startsWithSeq : List Char → List Char → Bool
  | _, [] => true
  | [], _ :: _ => false
  | c :: cs, p :: ps => c = p && startsWithSeq cs ps

/-- Bool test whether `pat` occurs anywhere in `s`, on character lists. -/
def containsSeq : List Char → List Char → Bool
  | [], pat => pat.isEmpty
  | c :: rest, pat => startsWithSeq (c :: rest) pat || containsSeq rest pat

/-- Bool substring test on strings. -/
def containsStr (s pat : String) : Bool := containsSeq s.data pat.data

/-- Concrete DOM state with padded non-empty input, used by witnesses. -/
def stDemo : DomState where
  textValue := "  hello  "
  selectValue := "xx"
  resultsHTML := "r0"
  metricsHTML := "m0"

/-- Concrete DOM state with whitespace-only input. -/
def stBlank : DomState where
  textValue := " \t "
  selectValue := "en"
  resultsHTML := "keep-r"
  metricsHTML := "keep-m"

/-- Concrete DOM state with plain input, used by the C10 witness. -/
def stPlain : DomState where
  textValue := "hello"
  selectValue := "te"
  resultsHTML := "r0"
  metricsHTML := "m0"

/-- Concrete parsed response body lacking the `metrics` field. -/
def dataNoMetrics : JSVal :=
  .obj [("detected_language_name", .str "English"), ("original_text", .str "hi"),
        ("retrieved_items", .arr []), ("translated_text", .str "hola")]

lemma itemHTML_mkItem (i : Nat) (r : RItem) :
    itemHTML i (mkItem r) = .ok (ragItemHTML i r) := by
  simp [itemHTML, mkItem, getField, lookupField, jsToFixed, ragItemHTML, jsToString,
    bind, Except.bind]

lemma mapItems_map (items : List RItem) (i : Nat) :
    mapItems (items.map mkItem) i = .ok (ragJoin items i) := by
  induction items generalizing i with
  | nil => rfl
  | cons r rest ih => simp [mapItems, itemHTML_mkItem, ih, ragJoin]

lemma ragItemHTML_length_pos (i : Nat) (r : RItem) : 0 < (ragItemHTML i r).length := by
  rw [ragItemHTML]
  simp only [String.length_append]
  have hlast : 0 < String.length "</div>\n      </div>\n    " := by decide
  omega

lemma ragJoin_cons_ne_empty (r : RItem) (rest : List RItem) (i : Nat) :
    ragJoin (r :: rest) i ≠ "" := by
  intro h
  have hlen := congrArg String.length h
  rw [ragJoin] at hlen
  simp only [String.length_append, String.length_empty] at hlen
  have hpos := ragItemHTML_length_pos i r
  omega

/-- Characterization of `renderResults` on every well-typed response: it
succeeds, and the output is the outer template with the detected language,
original text, normalized-input slot, retrieved-context slot and translated
text filled in. -/
lemma renderResults_mkResponse (dln ot : String) (norm : Option String)
    (items : List RItem) (tt : String) (metrics : JSVal) :
    renderResults (mkResponse dln ot norm items tt metrics) =
      .ok (resultsShell dln ot (normSlot norm) (ragSlot items) tt) := by
  cases norm with
  | none =>
    simp [renderResults, mkResponse, getField, lookupField, coerceItems, truthy,
      mapItems_map, ragSlot, normSlot, jsToString, bind, Except.bind]
  | some s =>
    by_cases hs : s = "" <;>
      simp [renderResults, mkResponse, getField, lookupField, coerceItems, truthy,
        mapItems_map, ragSlot, normSlot, jsToString, hs, bind, Except.bind]

/-- Characterization of `renderMetrics` on every well-typed metrics record:
all five fields render, the fraction-valued ones as percentages via
toFixed(2) after multiplication by 100, the others via the default number
conversion. -/
lemma renderMetrics_mkMetrics (bleu comet latency nep tox : ℚ) :
    renderMetrics (mkMetrics bleu comet latency nep tox) =
      .ok (metricsShell (ratToString bleu) (ratToString comet) (ratToString latency)
        (toFixed (nep * 100) 2) (toFixed (tox * 100) 2)) := by
  simp [renderMetrics, mkMetrics, getField, lookupField, jsToString, jsMulToFixed,
    bind, Except.bind]

/-! Substring lemmas used to state verbatim-insertion properties, and
evaluation of the concrete toFixed values named by the spec. -/

lemma substrOf_refl (p : String) : SubstrOf p p :=
  ⟨[], [], by simp⟩

lemma substrOf_appL (p a b : String) (h : SubstrOf p a) : SubstrOf p (a ++ b) := by
  obtain ⟨pre, post, hp⟩ := h
  exact ⟨pre, post ++ b.data, by simp [String.data_append, hp]⟩

lemma substrOf_appR (p a b : String) (h : SubstrOf p b) : SubstrOf p (a ++ b) := by
  obtain ⟨pre, post, hp⟩ := h
  exact ⟨a.data ++ pre, post, by simp [String.data_append, hp]⟩

lemma substrOf_here (x p y : String) : SubstrOf p (x ++ p ++ y) :=
  substrOf_appL p (x ++ p) y (substrOf_appR p x p (substrOf_refl p))

lemma substrOf_text_item (i : Nat) (r : RItem) : SubstrOf r.text (ragItemHTML i r) := by
  rw [ragItemHTML]
  exact substrOf_appR _ _ _ (substrOf_appR _ _ _ (substrOf_appR _ _ _
    (substrOf_appR _ _ _ (substrOf_here _ _ _))))

lemma substrOf_text_ragJoin (r : RItem) (items : List RItem) (i : Nat)
    (hr : r ∈ items) : SubstrOf r.text (ragJoin items i) := by
  induction items generalizing i with
  | nil => cases hr
  | cons r0 rest ih =>
    rw [ragJoin]
    rcases List.mem_cons.mp hr with rfl | hmem
    · exact substrOf_appL _ _ _ (substrOf_text_item i r)
    · exact substrOf_appR _ _ _ (ih (i + 1) hmem)

lemma toFixed_eval_score1 : toFixed (8231 / 10000) 3 = "0.823" := by
  have h : ((8231 : ℚ) / 10000 * (10 : ℚ) ^ (3 : ℕ) + 1 / 2) =
      ((4118 : ℤ) : ℚ) / ((5 : ℕ) : ℚ) := by
    push_cast
    norm_num
  simp only [toFixed, h, Rat.floor_intCast_div_natCast]
  decide

lemma toFixed_eval_score2 : toFixed (1 / 2) 3 = "0.500" := by
  have h : ((1 : ℚ) / 2 * (10 : ℚ) ^ (3 : ℕ) + 1 / 2) =
      ((1001 : ℤ) : ℚ) / ((2 : ℕ) : ℚ) := by
    push_cast
    norm_num
  simp only [toFixed, h, Rat.floor_intCast_div_natCast]
  decide

lemma toFixed_eval_nep : toFixed ((9567 / 10000 : ℚ) * 100) 2 = "95.67" := by
  have h : ((9567 / 10000 : ℚ) * 100 * (10 : ℚ) ^ (2 : ℕ) + 1 / 2) =
      ((19135 : ℤ) : ℚ) / ((2 : ℕ) : ℚ) := by
    push_cast
    norm_num
  simp only [toFixed, h, Rat.floor_intCast_div_natCast]
  decide

lemma toFixed_eval_tox : toFixed ((1 / 100 : ℚ) * 100) 2 = "1.00" := by
  have h : ((1 / 100 : ℚ) * 100 * (10 : ℚ) ^ (2 : ℕ) + 1 / 2) =
      ((201 : ℤ) : ℚ) / ((2 : ℕ) : ℚ) := by
    push_cast
    norm_num
  simp only [toFixed, h, Rat.floor_intCast_div_natCast]
  decide

/-! Claims. -/

/-- C1: for every input whose trimmed text is non-empty, handleProcess
issues exactly one POST request to `/api/process` on the fixed origin, with
the Content-Type: application/json header and the JSON.stringify of a body
whose `text` field is the trimmed input and whose `target_lang` field is
the current value of the select — quantified over an arbitrary `selectValue`,
so the value is passed through with no validation against the enumerated
language set. -/
theorem claim_C1_single_post (st : DomState) (fetch : FetchOutcome)
    (ht : jsTrim st.textValue ≠ "") :
    (handleProcess st fetch).requests =
      [{ url := API_URL ++ "/api/process", method := "POST",
         contentType := "application/json",
         body := jsonStringify (.obj [("text", .str (jsTrim st.textValue)),
                                      ("target_lang", .str st.selectValue)]) }] := by
  simp only [handleProcess]
  rw [if_neg ht]
  cases htb : tryBody fetch with
  | ok rm => obtain ⟨r, m⟩ := rm; rfl
  | error e => rfl

/-- C1 witness at a concrete state and outcome. -/
theorem claim_C1_witness :
    (handleProcess stDemo .netError).requests =
      [{ url := API_URL ++ "/api/process", method := "POST",
         contentType := "application/json",
         body := jsonStringify (.obj [("text", .str (jsTrim stDemo.textValue)),
                                      ("target_lang", .str stDemo.selectValue)]) }] :=
  claim_C1_single_post stDemo .netError (by decide)

/-- C2: every failure of the submit operation — transport failure, non-ok
HTTP status, or JSON parse failure — leaves the fixed backend-error message
in the results area and the fixed Failed label in the metrics area, and
logs exactly one error to the console; `handleProcess` is a total function
of the model, so no exception escapes to the caller. -/
theorem claim_C2_failure_views (st : DomState) (fetch : FetchOutcome)
    (ht : jsTrim st.textValue ≠ "")
    (hf : fetch = .netError
      ∨ (∃ status body, fetch = .response status body ∧ statusOk status = false)
      ∨ (∃ status e, fetch = .response status (.error e) ∧ statusOk status = true)) :
    (handleProcess st fetch).dom.resultsHTML = backendErrorHTML
    ∧ (handleProcess st fetch).dom.metricsHTML = failedHTML
    ∧ (handleProcess st fetch).logged.length = 1 := by
  have htry : ∃ e, tryBody fetch = .error e := by
    rcases hf with rfl | ⟨status, body, rfl, hbad⟩ | ⟨status, e, rfl, hok⟩
    · exact ⟨.typeError "Failed to fetch", rfl⟩
    · exact ⟨.genericError ("HTTP " ++ toString status), by simp [tryBody, hbad]⟩
    · exact ⟨e, by simp [tryBody, hok]⟩
  obtain ⟨e, he⟩ := htry
  refine ⟨?_, ?_, ?_⟩ <;> simp [handleProcess, ht, he]

/-- C2 witness: an HTTP 500 response. -/
theorem claim_C2_witness :
    (handleProcess stDemo (.response 500 (.ok (.obj [])))).dom.resultsHTML = backendErrorHTML
    ∧ (handleProcess stDemo (.response 500 (.ok (.obj [])))).dom.metricsHTML = failedHTML
    ∧ (handleProcess stDemo (.response 500 (.ok (.obj [])))).logged.length = 1 :=
  claim_C2_failure_views stDemo (.response 500 (.ok (.obj []))) (by decide)
    (Or.inr (Or.inl ⟨500, .ok (.obj []), rfl, by decide⟩))

/-- C3: when the trimmed input is empty, handleProcess performs no network
call, changes neither display region (the whole DOM state is returned
unchanged), logs nothing, and calls focus() on the text field. -/
theorem claim_C3_empty_noop (st : DomState) (fetch : FetchOutcome)
    (ht : jsTrim st.textValue = "") :
    handleProcess st fetch =
      { dom := st, requests := [], focusedInput := true, logged := [] } := by
  simp [handleProcess, ht]

/-- C3 witness: whitespace-only input. -/
theorem claim_C3_witness :
    handleProcess stBlank .netError =
      { dom := stBlank, requests := [], focusedInput := true, logged := [] } :=
  claim_C3_empty_noop stBlank .netError (by decide)

/-- C4: after a completed non-empty submission the two display regions hold
either the full error pair (backend-error message and Failed label) or the
full success pair produced together by the try block — never a mixture. -/
theorem claim_C4_atomic (st : DomState) (fetch : FetchOutcome)
    (ht : jsTrim st.textValue ≠ "") :
    ((handleProcess st fetch).dom.resultsHTML = backendErrorHTML
      ∧ (handleProcess st fetch).dom.metricsHTML = failedHTML)
    ∨ (∃ r m, tryBody fetch = .ok (r, m)
        ∧ (handleProcess st fetch).dom.resultsHTML = r
        ∧ (handleProcess st fetch).dom.metricsHTML = m) := by
  cases htb : tryBody fetch with
  | ok rm =>
    obtain ⟨r, m⟩ := rm
    refine Or.inr ⟨r, m, rfl, ?_, ?_⟩ <;> simp [handleProcess, ht, htb]
  | error e =>
    exact Or.inl ⟨by simp [handleProcess, ht, htb], by simp [handleProcess, ht, htb]⟩

/-- C4 witness: a transport failure ends in the full error pair. -/
theorem claim_C4_witness :
    (((handleProcess stDemo .netError).dom.resultsHTML = backendErrorHTML
      ∧ (handleProcess stDemo .netError).dom.metricsHTML = failedHTML)
    ∨ (∃ r m, tryBody .netError = .ok (r, m)
        ∧ (handleProcess stDemo .netError).dom.resultsHTML = r
        ∧ (handleProcess stDemo .netError).dom.metricsHTML = m)) :=
  claim_C4_atomic stDemo .netError (by decide)

/-- C5: on a well-typed successful response the rendered output carries the
normalized-text block exactly when `normalized_text` is present and
non-empty: a non-empty value fills the slot with the full block containing
it, while the empty string or an absent field leaves the slot literally
empty (no block at all). -/
theorem claim_C5_norm_block (dln ot s tt : String) (items : List RItem)
    (metrics : JSVal) :
    (s ≠ "" →
      renderResults (mkResponse dln ot (some s) items tt metrics) =
        .ok (resultsShell dln ot (normBlockHTML s) (ragSlot items) tt))
    ∧ renderResults (mkResponse dln ot (some "") items tt metrics) =
        .ok (resultsShell dln ot "" (ragSlot items) tt)
    ∧ renderResults (mkResponse dln ot none items tt metrics) =
        .ok (resultsShell dln ot "" (ragSlot items) tt) := by
  refine ⟨fun hs => ?_, ?_, ?_⟩
  · rw [renderResults_mkResponse]
    simp [normSlot, hs]
  · rw [renderResults_mkResponse]
    simp [normSlot]
  · rw [renderResults_mkResponse]
    simp [normSlot]

/-- C5 witness: a non-empty normalized text yields the block. -/
theorem claim_C5_witness :
    renderResults (mkResponse "English" "hello" (some "Hello") [] "hola" (.obj [])) =
      .ok (resultsShell "English" "hello" (normBlockHTML "Hello") (ragSlot []) "hola") :=
  (claim_C5_norm_block "English" "hello" "Hello" "hola" [] (.obj [])).1 (by decide)

/-- C6: a successful response with zero retrieved items renders the single
placeholder in the retrieved-context slot, and the placeholder contains no
retrieved-item element (no occurrence of the result-item markup class). -/
theorem claim_C6_empty_items (dln ot tt : String) (norm : Option String)
    (metrics : JSVal) :
    renderResults (mkResponse dln ot norm [] tt metrics) =
      .ok (resultsShell dln ot (normSlot norm) noItemsHTML tt)
    ∧ containsStr noItemsHTML "result-item" = false := by
  refine ⟨?_, by decide⟩
  rw [renderResults_mkResponse]
  simp [ragSlot, ragJoin]

/-- C7: a non-empty retrieved-items list renders one element per item, in
the order received (`ragJoin` folds the list left to right without
re-sorting), each with the 1-based rank `i + 1`, the domain and
language, and the score formatted by toFixed(3); in particular the scores
0.8231 and 0.5 display as 0.823 and 0.500. -/
theorem claim_C7_ranked_items (dln ot tt : String) (norm : Option String)
    (items : List RItem) (metrics : JSVal) (h : items ≠ []) :
    renderResults (mkResponse dln ot norm items tt metrics) =
      .ok (resultsShell dln ot (normSlot norm) (ragJoin items 0) tt)
    ∧ toFixed (8231 / 10000) 3 = "0.823" ∧ toFixed (1 / 2) 3 = "0.500" := by
  refine ⟨?_, toFixed_eval_score1, toFixed_eval_score2⟩
  rw [renderResults_mkResponse]
  obtain ⟨r, rest, rfl⟩ := List.exists_cons_of_ne_nil h
  simp [ragSlot, ragJoin_cons_ne_empty]

/-- C7 witness at the example scores named by the spec. -/
theorem claim_C7_witness :
    renderResults (mkResponse "English" "hello" none
        [⟨"health", "en", 8231 / 10000, "doc one"⟩, ⟨"agri", "hi", 1 / 2, "doc two"⟩]
        "hola" (.obj [])) =
      .ok (resultsShell "English" "hello" (normSlot none)
        (ragJoin [⟨"health", "en", 8231 / 10000, "doc one"⟩,
                  ⟨"agri", "hi", 1 / 2, "doc two"⟩] 0) "hola")
    ∧ toFixed (8231 / 10000) 3 = "0.823" ∧ toFixed (1 / 2) 3 = "0.500" :=
  claim_C7_ranked_items "English" "hello" "hola" none
    [⟨"health", "en", 8231 / 10000, "doc one"⟩, ⟨"agri", "hi", 1 / 2, "doc two"⟩]
    (.obj []) (List.cons_ne_nil _ _)

/-- C8: renderMetrics renders all five fields of every well-typed metrics
record; the two fraction-valued metrics are multiplied by 100 and formatted
by toFixed(2) (a percentage with two decimals), while bleu, comet and
latency_ms are interpolated with the default number-to-string conversion,
unreformatted; in particular 0.9567 renders as 95.67 and 0.01 as 1.00. -/
theorem claim_C8_metrics (bleu comet latency nep tox : ℚ) :
    renderMetrics (mkMetrics bleu comet latency nep tox) =
      .ok (metricsShell (ratToString bleu) (ratToString comet) (ratToString latency)
        (toFixed (nep * 100) 2) (toFixed (tox * 100) 2))
    ∧ toFixed ((9567 / 10000 : ℚ) * 100) 2 = "95.67"
    ∧ toFixed ((1 / 100 : ℚ) * 100) 2 = "1.00" :=
  ⟨renderMetrics_mkMetrics bleu comet latency nep tox, toFixed_eval_nep, toFixed_eval_tox⟩

/-- C9: the backend-provided strings — detected language name, original
text, non-empty normalized text, the text of every retrieved item, and the
translated text — appear verbatim as contiguous substrings of the rendered
HTML: no escaping or sanitization is applied before insertion. -/
theorem claim_C9_verbatim (dln ot s tt : String) (items : List RItem)
    (metrics : JSVal) (r : RItem) (hr : r ∈ items) (hs : s ≠ "") :
    ∃ html, renderResults (mkResponse dln ot (some s) items tt metrics) = .ok html
      ∧ SubstrOf dln html ∧ SubstrOf ot html ∧ SubstrOf s html
      ∧ SubstrOf r.text html ∧ SubstrOf tt html := by
  refine ⟨resultsShell dln ot (normSlot (some s)) (ragSlot items) tt,
    renderResults_mkResponse dln ot (some s) items tt metrics, ?_, ?_, ?_, ?_, ?_⟩
  · rw [resultsShell]
    exact substrOf_here _ _ _
  · rw [resultsShell]
    exact substrOf_appR _ _ _ (substrOf_here _ _ _)
  · rw [resultsShell]
    refine substrOf_appR _ _ _ (substrOf_appR _ _ _ (substrOf_appL _ _ _
      (substrOf_appR _ _ _ ?_)))
    simp only [normSlot, if_neg hs]
    rw [normBlockHTML]
    exact substrOf_here _ _ _
  · cases items with
    | nil => cases hr
    | cons r1 rest =>
      rw [resultsShell]
      refine substrOf_appR _ _ _ (substrOf_appR _ _ _ (substrOf_appR _ _ _
        (substrOf_appL _ _ _ (substrOf_appR _ _ _ ?_))))
      have hslot : ragSlot (r1 :: rest) = ragJoin (r1 :: rest) 0 := by
        simp [ragSlot, ragJoin_cons_ne_empty]
      rw [hslot]
      exact substrOf_text_ragJoin r _ 0 hr
  · rw [resultsShell]
    exact substrOf_appR _ _ _ (substrOf_appR _ _ _ (substrOf_appR _ _ _
      (substrOf_appR _ _ _ (substrOf_here _ _ _))))

/-- C9 witness: markup-laden backend strings are inserted verbatim. -/
theorem claim_C9_witness :
    ∃ html, renderResults (mkResponse "English" "<p>orig</p>" (some "<i>norm</i>")
        [⟨"health", "en", 1 / 2, "<script>alert(1)</script>"⟩] "<b>out</b>" (.obj [])) =
        .ok html
      ∧ SubstrOf "English" html ∧ SubstrOf "<p>orig</p>" html
      ∧ SubstrOf "<i>norm</i>" html
      ∧ SubstrOf (RItem.text ⟨"health", "en", 1 / 2, "<script>alert(1)</script>"⟩) html
      ∧ SubstrOf "<b>out</b>" html :=
  claim_C9_verbatim "English" "<p>orig</p>" "<i>norm</i>" "<b>out</b>"
    [⟨"health", "en", 1 / 2, "<script>alert(1)</script>"⟩] (.obj [])
    ⟨"health", "en", 1 / 2, "<script>alert(1)</script>"⟩ (by simp) (by decide)

/-- C10: an ok-status response whose parsed body makes the rendering step
throw (renderResults, the data.metrics read, or renderMetrics) ends in the
same fixed error view as a backend failure, because the rendering runs
inside the same try/catch as the transport. -/
theorem claim_C10_render_throw (st : DomState) (status : Nat) (data : JSVal)
    (e : JSError) (ht : jsTrim st.textValue ≠ "") (hok : statusOk status = true)
    (herr : renderPipeline data = .error e) :
    (handleProcess st (.response status (.ok data))).dom.resultsHTML = backendErrorHTML
    ∧ (handleProcess st (.response status (.ok data))).dom.metricsHTML = failedHTML := by
  have htry : tryBody (.response status (.ok data)) = .error e := by
    simp [tryBody, hok, herr]
  constructor <;> simp [handleProcess, ht, htry]

/-- C10 witness: a 200 response whose body lacks the `metrics` object. -/
theorem claim_C10_witness :
    (handleProcess stPlain (.response 200 (.ok dataNoMetrics))).dom.resultsHTML =
      backendErrorHTML
    ∧ (handleProcess stPlain (.response 200 (.ok dataNoMetrics))).dom.metricsHTML =
      failedHTML :=
  claim_C10_render_throw stPlain 200 dataNoMetrics
    (.typeError ("Cannot read properties of undefined (reading " ++ "bleu" ++ ")"))
    (by decide) (by decide)
    (by simp [renderPipeline, renderResults, renderMetrics, getField, lookupField,
      coerceItems, truthy, mapItems, jsToString, bind, Except.bind, dataNoMetrics])

end BhashaSethu
